import Mathlib

/-!
Verification of the Academic Paper Scraper pipeline
(`src/academic_scraper/app.py`).

The embedding models the Celery task `scrape_and_summarize`, the Flask
endpoints `submit_topic` and `get_task_status`, and (modelled from the
spec, since the sumy library source is external) the Luhn extractive
summarizer.  Network effects are parameters: the listing fetch outcome is
a `FetchOutcome` value and the per-paper fetch/summarize step is a
function from a paper reference to an `Except` outcome.
-/

/-- A paper reference extracted from the arXiv listing page:
`{"title": ..., "link": ...}` (app.py lines 173-176). -/
structure PaperReference where
  title : String
  link : String
deriving Repr, DecidableEq

/-- A result entry appended to `summaries` (app.py lines 194-204):
title, link, and either a summary text or a failure message. -/
structure PaperResult where
  title : String
  link : String
  summary : String
deriving Repr, DecidableEq

/-- One `li.arxiv-result` entry of the parsed listing page.
`title_element` is `some t` when `entry.find("p", class_="title is-5 mathjax")`
finds an element whose stripped text is `t`, `none` when `find` returns `None`;
`link_element` is `some l` when `entry.find("a", href=True, title="Abstract")`
finds an anchor with `href` equal to `l` (app.py lines 169-170). -/
structure ArxivEntry where
  title_element : Option String
  link_element : Option String
deriving Repr, DecidableEq

/-- The listing-parse loop of `scrape_and_summarize` (app.py lines 167-176):
appends `{title, link}` exactly when both elements were found, otherwise
silently skips the entry. -/
def listPapers : List ArxivEntry → List PaperReference
  | [] => []
  | e :: rest =>
    match e.title_element, e.link_element with
    | some t, some l => { title := t, link := l } :: listPapers rest
    | _, _ => listPapers rest

/-- Outcome of `requests.get(search_url)`: either a transport-level
exception with message `msg`, or an HTTP response carrying a status code,
a reason phrase and the parsed listing entries of its body. -/
inductive FetchOutcome where
  | transportError (msg : String)
  | response (status : Nat) (reason : String) (entries : List ArxivEntry)
deriving Repr, DecidableEq

/-- `response.raise_for_status()` from the requests library
(app.py line 164): returns `some msg` when it raises `HTTPError` with
message `msg` (4xx client error or 5xx server error), `none` when it
returns normally. -/
def raise_for_status (status : Nat) (reason url : String) : Option String :=
  if 400 ≤ status ∧ status < 500 then
    some (toString status ++ " Client Error: " ++ reason ++ " for url: " ++ url)
  else if 500 ≤ status ∧ status < 600 then
    some (toString status ++ " Server Error: " ++ reason ++ " for url: " ++ url)
  else
    none

/-- The per-paper body of the fan-out loop (app.py lines 185-204).
`fs p` is the combined outcome of `HtmlParser.from_url` + summarization for
paper `p`: `Except.ok t` when it produces summary text `t`, `Except.error e`
when any exception with message `e` is raised (caught by the inner
`except Exception` on line 199). -/
def processPaper (fs : PaperReference → Except String String)
    (p : PaperReference) : PaperResult :=
  match fs p with
  | Except.ok t =>
    { title := p.title, link := p.link, summary := t }
  | Except.error e =>
    { title := p.title, link := p.link, summary := "Could not generate summary: " ++ e }

/-- The JSON object returned by the task (app.py lines 179, 208, 212):
`papers = none` models the `papers` key being absent, likewise `error`. -/
structure TaskResult where
  status : String
  papers : Option (List PaperResult)
  error : Option String
deriving Repr, DecidableEq

/-- The Celery task `scrape_and_summarize` (app.py lines 154-212), with the
network modelled by `fetch` (outcome of the listing `requests.get`) and
`fs` (per-paper fetch+summarize outcome).  The outer
`except requests.exceptions.RequestException` catches the transport error
and the `HTTPError` from `raise_for_status`; per-paper exceptions are
caught inside the loop and never reach it. -/
def scrape_and_summarize (fetch : FetchOutcome) (url : String)
    (fs : PaperReference → Except String String) : TaskResult :=
  match fetch with
  | FetchOutcome.transportError msg =>
    { status := "failure", papers := none, error := some msg }
  | FetchOutcome.response st reason entries =>
    match raise_for_status st reason url with
    | some msg => { status := "failure", papers := none, error := some msg }
    | none =>
      let papers := listPapers entries
      if papers.isEmpty then
        { status := "complete", papers := some [], error := none }
      else
        { status := "complete",
          papers := some (papers.map (processPaper fs)),
          error := none }

/-- `some msg` exactly when the listing fetch fails fatally for the job
(transport exception, or `raise_for_status` raising on a non-success
status); `msg` is the exception text recorded by the outer handler. -/
def listing_failure_message : FetchOutcome → String → Option String
  | FetchOutcome.transportError msg, _ => some msg
  | FetchOutcome.response st reason _, url => raise_for_status st reason url

/-- The `/submit` endpoint `submit_topic` (app.py lines 218-224).
`topic` is `request.form.get("topic")`: `none` when the field is absent.
The guard is Python truthiness `if not topic:` — only `None` and the empty
string are falsy.  `Except.error` is the 400 response body, `Except.ok id`
is the 202 response carrying the id of the job just dispatched. -/
def submit_topic (topic : Option String) (newId : String) : Except String String :=
  match topic with
  | none => Except.error "Topic is required"
  | some t =>
    if t = "" then Except.error "Topic is required"
    else Except.ok newId

/-- The body of the `/status/<task_id>` response (app.py lines 229-236):
`ready r` is the 200 response `{"status": "ready", "result": r}`,
`pending` is the 202 response `{"status": "pending"}`. -/
inductive StatusView where
  | ready (result : TaskResult)
  | pending
deriving Repr, DecidableEq

/-- The `/status/<task_id>` endpoint `get_task_status` (app.py lines
226-236).  `finished id` models the Celery result backend: `some r` when
`AsyncResult(id).ready()` is true with stored result `r`, `none` otherwise.
For an id that was never issued, Celery reports state `PENDING`
(`ready()` false), so `finished id = none`. -/
def get_task_status (finished : String → Option TaskResult)
    (task_id : String) : StatusView :=
  match finished task_id with
  | some r => StatusView.ready r
  | none => StatusView.pending

/-! ### Extractive summarizer, modelled from the spec (section 4.2)

The pipeline summarizes with sumy's `LuhnSummarizer` (app.py lines
186-192), whose source is an external library and not part of src/, so
the algorithm is modelled from the spec. -/

/-- A tokenized sentence: the ordered normalized (stemmed, stop-word
stripped) words, as produced by the extractor of spec section 4.1. -/
abbrev Sentence := List String

/-- Modelled from the spec: frequency of a word across all sentences of
the document (spec 4.2 step 1; the sumy library implementing it is not
in src/). -/
def wordFreq (doc : List Sentence) (w : String) : Nat :=
  doc.flatten.count w

/-- Modelled from the spec: a word is significant when its frequency lies
between the low and the high threshold (spec 4.2 step 1; thresholds
tunable). -/
def significant (doc : List Sentence) (lo hi : Nat) (w : String) : Bool :=
  decide (lo ≤ wordFreq doc w ∧ wordFreq doc w ≤ hi)

/-- The significance mask of a sentence: one Bool per word. -/
def sigMask (doc : List Sentence) (lo hi : Nat) (s : Sentence) : List Bool :=
  s.map (significant doc lo hi)

/-- Positions of significant words inside a mask. -/
def sigPositions (mask : List Bool) : List Nat :=
  (List.range mask.length).filter (fun i => mask.getD i false)

/-- Modelled from the spec: a window (contiguous slice of a sentence's
mask) is a valid cluster when it is bounded by significant words and the
gap between consecutive significant words never exceeds `gap`
non-significant words (spec 4.2 step 2; default gap 4). -/
def windowValid (w : List Bool) (gap : Nat) : Bool :=
  let ps := sigPositions w
  decide (ps.head? = some 0) &&
  decide (ps.getLast? = some (w.length - 1)) &&
  decide (List.Chain' (fun a b => b - a ≤ gap + 1) ps)

/-- All contiguous non-empty slices of a list. -/
def windows (l : List Bool) : List (List Bool) :=
  (List.range l.length).flatMap (fun i =>
    (List.range (l.length - i)).map (fun k => (l.drop i).take (k + 1)))

/-- Modelled from the spec: the score of a window is
(significant count)^2 / window length (spec 4.2 step 3). -/
def windowScore (w : List Bool) : ℚ :=
  if w.length = 0 then 0
  else ((sigPositions w).length : ℚ) ^ 2 / (w.length : ℚ)

/-- Modelled from the spec: a sentence's rating is the maximum score over
its valid windows, 0 when it has fewer than two significant words
(spec 4.2 step 3). -/
def sentenceRating (doc : List Sentence) (lo hi gap : Nat) (s : Sentence) : ℚ :=
  let mask := sigMask doc lo hi s
  if (sigPositions mask).length < 2 then 0
  else ((windows mask).filter (fun w => windowValid w gap)).foldr
    (fun w acc => max (windowScore w) acc) 0

/-- The rank of sentence `i`: how many sentences beat it, i.e. have a
strictly higher rating, or an equal rating and an earlier position
(spec 4.2 step 4: highest scores win, ties broken by earliest original
position). -/
def rank (ratings : List ℚ) (i : Nat) : Nat :=
  ((List.range ratings.length).filter (fun j =>
    decide (ratings.getD i 0 < ratings.getD j 0 ∨
      (ratings.getD j 0 = ratings.getD i 0 ∧ j < i)))).length

/-- Modelled from the spec: `summarize` selects the `n` sentences with the
highest ratings (ties by earliest position) and outputs them in original
document order (spec 4.2 step 4). -/
def summarize (doc : List Sentence) (lo hi gap n : Nat) : List Sentence :=
  ((List.range doc.length).filter (fun i =>
    decide (rank (doc.map (sentenceRating doc lo hi gap)) i < n))).map
    (fun i => doc.getD i [])

/-- A small concrete listing page: two complete entries and one whose
title element is missing. -/
def demoEntries : List ArxivEntry :=
  [{ title_element := some "Paper A", link_element := some "/abs/1" },
   { title_element := some "Paper B", link_element := some "/abs/2" },
   { title_element := none, link_element := some "/abs/3" }]

/-- A concrete per-paper environment: the fetch+summarize step raises
an exception with message "boom" for the paper at link "/abs/2" and
succeeds elsewhere. -/
def demoFs : PaperReference → Except String String :=
  fun p =>
    if p.link = "/abs/2" then Except.error "boom"
    else Except.ok "A fine summary."

/-! ### Helper lemmas -/

/-- On a successful listing fetch the task returns a complete record whose
papers are the per-paper results of the parsed references, in order. -/
theorem scrape_success_eq (entries : List ArxivEntry) (st : Nat) (reason url : String)
    (fs : PaperReference → Except String String)
    (hok : raise_for_status st reason url = none) :
    scrape_and_summarize (FetchOutcome.response st reason entries) url fs =
      { status := "complete",
        papers := some ((listPapers entries).map (processPaper fs)),
        error := none } := by
  show (match raise_for_status st reason url with
    | some msg => ({ status := "failure", papers := none, error := some msg } : TaskResult)
    | none =>
      let papers := listPapers entries
      if papers.isEmpty then
        { status := "complete", papers := some [], error := none }
      else
        { status := "complete",
          papers := some (papers.map (processPaper fs)),
          error := none }) = _
  rw [hok]
  by_cases h : (listPapers entries).isEmpty
  · have := List.isEmpty_iff.mp h
    simp [h, this]
  · simp [h]

/-- The message of an `HTTPError` raised by `raise_for_status` is never
empty: it always contains the literal " Client Error: " or
" Server Error: ". -/
theorem raise_for_status_ne_empty (st : Nat) (reason url e : String)
    (h : raise_for_status st reason url = some e) : e ≠ "" := by
  unfold raise_for_status at h
  have hc : (" Client Error: " : String).length = 15 := rfl
  have hs : (" Server Error: " : String).length = 15 := rfl
  split at h
  · cases h
    intro hemp
    have := congrArg String.length hemp
    simp only [String.length_append, String.length_empty] at this
    omega
  · split at h
    · cases h
      intro hemp
      have := congrArg String.length hemp
      simp only [String.length_append, String.length_empty] at this
      omega
    · cases h

/-- No sentence is beaten by more than `length - 1` others: a sentence
never beats itself (its rating is not strictly above itself and its
position not strictly earlier). -/
theorem rank_lt_length (ratings : List ℚ) (i : Nat) (hi : i < ratings.length) :
    rank ratings i < ratings.length := by
  unfold rank
  have hlt : ((List.range ratings.length).filter (fun j =>
      decide (ratings.getD i 0 < ratings.getD j 0 ∨
        (ratings.getD j 0 = ratings.getD i 0 ∧ j < i)))).length <
      (List.range ratings.length).length := by
    refine List.length_filter_lt_length_iff_exists.mpr ⟨i, List.mem_range.mpr hi, ?_⟩
    simp
  simpa using hlt

/-- Reading a list back element by element over the range of its indices
reproduces the list. -/
theorem map_getD_range {α : Type} (l : List α) (d : α) :
    (List.range l.length).map (fun i => l.getD i d) = l := by
  induction l with
  | nil => rfl
  | cons a t ih =>
    rw [List.length_cons, List.range_succ_eq_map, List.map_cons, List.map_map]
    have hmap : (List.range t.length).map ((fun i => (a :: t).getD i d) ∘ Nat.succ) =
        (List.range t.length).map (fun i => t.getD i d) := by
      refine List.map_congr_left ?_
      intro j hj
      rfl
    rw [hmap, ih]
    rfl

/-! ### Claim theorems -/

/-- C7: for every successful listing fetch, the parse loop skips every
entry missing a title or a link — such entries contribute nothing to the
output and parsing never fails — and every entry with both a title and a
link appears as a reference carrying exactly that title and link, in
listing order.  (`listPapers` is total, so skipping is not a failure.) -/
theorem listing_parse_skips_incomplete_entries (entries : List ArxivEntry) :
    listPapers entries =
      (entries.filter (fun e => e.title_element.isSome && e.link_element.isSome)).map
        (fun e => { title := e.title_element.getD "", link := e.link_element.getD "" }) := by
  induction entries with
  | nil => rfl
  | cons e rest ih =>
    cases ht : e.title_element with
    | none => simp [listPapers, List.filter_cons, ht, ih]
    | some t =>
      cases hl : e.link_element with
      | none => simp [listPapers, List.filter_cons, ht, hl, ih]
      | some l => simp [listPapers, List.filter_cons, ht, hl, ih]

/-- C6: for every topic whose listing fetch succeeds but parses to zero
references, the task returns the complete record with an empty papers
list, and the result does not depend on the per-paper stage at all. -/
theorem empty_listing_completes_immediately
    (entries : List ArxivEntry) (st : Nat) (reason url : String)
    (fs : PaperReference → Except String String)
    (hok : raise_for_status st reason url = none)
    (hempty : listPapers entries = []) :
    scrape_and_summarize (FetchOutcome.response st reason entries) url fs =
      { status := "complete", papers := some [], error := none } := by
  rw [scrape_success_eq entries st reason url fs hok, hempty]
  rfl

/-- C6 witness: a listing page whose only entry lacks both elements
parses to zero references and the job completes with an empty list. -/
theorem empty_listing_completes_immediately_witness :
    raise_for_status 200 "OK" "u" = none ∧
    listPapers [{ title_element := none, link_element := none }] = [] ∧
    scrape_and_summarize
      (FetchOutcome.response 200 "OK" [{ title_element := none, link_element := none }])
      "u" demoFs =
      { status := "complete", papers := some [], error := none } :=
  ⟨by decide, by decide,
    empty_listing_completes_immediately _ 200 "OK" "u" demoFs (by decide) (by decide)⟩

/-- C10: for every paper reference processed in the fan-out, the result
keeps the reference's title and link unchanged in both the success and
the failure branch; only the summary differs between the branches. -/
theorem process_paper_preserves_title_link
    (fs : PaperReference → Except String String) (p : PaperReference) :
    ((processPaper fs p).title = p.title ∧ (processPaper fs p).link = p.link) ∧
    (∀ t, fs p = Except.ok t →
      processPaper fs p = { title := p.title, link := p.link, summary := t }) ∧
    (∀ e, fs p = Except.error e →
      processPaper fs p =
        { title := p.title, link := p.link,
          summary := "Could not generate summary: " ++ e }) := by
  refine ⟨?_, ?_, ?_⟩
  · unfold processPaper
    cases fs p <;> exact ⟨rfl, rfl⟩
  · intro t ht
    simp [processPaper, ht]
  · intro e he
    simp [processPaper, he]

/-- C10 witness: the failing demo paper keeps its title and link and
gets the failure summary. -/
theorem process_paper_preserves_title_link_witness :
    demoFs { title := "Paper B", link := "/abs/2" } = Except.error "boom" ∧
    processPaper demoFs { title := "Paper B", link := "/abs/2" } =
      { title := "Paper B", link := "/abs/2",
        summary := "Could not generate summary: boom" } :=
  ⟨rfl,
    (process_paper_preserves_title_link demoFs
      { title := "Paper B", link := "/abs/2" }).2.2 "boom" rfl⟩

/-- C3 counterexample: the claim says `Submit("   ")` fails with a
validation error and creates no job, but the guard is Python truthiness
(`if not topic:`), so the whitespace-only topic "   " passes validation,
a task is dispatched and its id is returned. -/
theorem whitespace_topic_creates_job :
    submit_topic (some "   ") "job-1" = Except.ok "job-1" := rfl

/-- C3 amended: Submit rejects exactly the missing and the empty topic;
every other topic — whitespace-only ones included — dispatches a job and
returns its id. -/
theorem submit_rejects_only_empty_topic (topic : Option String) (newId : String) :
    (submit_topic topic newId = Except.error "Topic is required" ↔
      (topic = none ∨ topic = some "")) ∧
    (∀ t, topic = some t → t ≠ "" → submit_topic topic newId = Except.ok newId) := by
  cases topic with
  | none => simp [submit_topic]
  | some t =>
    by_cases ht : t = "" <;> simp [submit_topic, ht]

/-- C3 amended witness: a non-empty topic is accepted. -/
theorem submit_rejects_only_empty_topic_witness :
    submit_topic (some "quantum computing") "job-2" = Except.ok "job-2" :=
  (submit_rejects_only_empty_topic (some "quantum computing") "job-2").2
    "quantum computing" rfl (by decide)

/-- C4 counterexample: the claim says a status query for an unknown id
fails with a not-found error, but with an unknown id the Celery
`AsyncResult` is merely not ready, so the endpoint returns the ordinary
pending response instead of any error. -/
theorem unknown_id_returns_pending :
    get_task_status (fun _ => none) "nonexistent-id" = StatusView.pending := rfl

/-- C4 amended: for every id the result backend has no stored result for
— unknown ids included, since the backend cannot distinguish them from
jobs still running — the endpoint returns the pending response (HTTP 202)
and never a not-found error. -/
theorem status_unknown_id_pending
    (finished : String → Option TaskResult) (task_id : String)
    (h : finished task_id = none) :
    get_task_status finished task_id = StatusView.pending := by
  simp [get_task_status, h]

/-- C4 amended witness. -/
theorem status_unknown_id_pending_witness :
    (fun _ => (none : Option TaskResult)) "never-issued-id" = none ∧
    get_task_status (fun _ => none) "never-issued-id" = StatusView.pending :=
  ⟨rfl, status_unknown_id_pending (fun _ => none) "never-issued-id" rfl⟩

/-- C1: for every job whose listing fetch succeeds with N parsed
references, whatever subset of per-item fetch/parse/summarize steps
fails, the task returns a complete (never failed) record whose papers
list has exactly one entry per reference, and each failing entry's
summary is "Could not generate summary: " followed by the reason. -/
theorem job_completes_with_one_result_per_reference
    (entries : List ArxivEntry) (st : Nat) (reason url : String)
    (fs : PaperReference → Except String String)
    (hok : raise_for_status st reason url = none) :
    (scrape_and_summarize (FetchOutcome.response st reason entries) url fs).status =
      "complete" ∧
    (scrape_and_summarize (FetchOutcome.response st reason entries) url fs).error = none ∧
    ∃ ps,
      (scrape_and_summarize (FetchOutcome.response st reason entries) url fs).papers =
        some ps ∧
      ps.length = (listPapers entries).length ∧
      ∀ (i : Nat) (hi : i < ps.length) (hj : i < (listPapers entries).length)
        (e : String),
        fs (listPapers entries)[i] = Except.error e →
        ps[i].summary = "Could not generate summary: " ++ e := by
  rw [scrape_success_eq entries st reason url fs hok]
  refine ⟨rfl, rfl, (listPapers entries).map (processPaper fs), rfl,
    List.length_map _ _, ?_⟩
  intro i hi hj e hfe
  rw [List.getElem_map]
  simp [processPaper, hfe]

/-- C1 witness: three demo entries parse to two references, the second
per-item step fails with "boom", and the job still completes with one
result per reference. -/
theorem job_completes_with_one_result_per_reference_witness :
    raise_for_status 200 "OK" "u" = none ∧
    ((scrape_and_summarize (FetchOutcome.response 200 "OK" demoEntries) "u" demoFs).status =
      "complete" ∧
     (scrape_and_summarize (FetchOutcome.response 200 "OK" demoEntries) "u" demoFs).error =
      none ∧
     ∃ ps,
       (scrape_and_summarize (FetchOutcome.response 200 "OK" demoEntries) "u" demoFs).papers =
         some ps ∧
       ps.length = (listPapers demoEntries).length ∧
       ∀ (i : Nat) (hi : i < ps.length) (hj : i < (listPapers demoEntries).length)
         (e : String),
         demoFs (listPapers demoEntries)[i] = Except.error e →
         ps[i].summary = "Could not generate summary: " ++ e) :=
  ⟨by decide,
    job_completes_with_one_result_per_reference demoEntries 200 "OK" "u" demoFs (by decide)⟩

/-- C2: for every fatal listing-fetch failure — a transport exception
(whose message, as recorded by `str(e)`, is assumed non-empty) or a
non-success response status — the task returns the failed record with
that non-empty error and without any papers field. -/
theorem listing_failure_yields_failed_status
    (fetch : FetchOutcome) (url : String)
    (fs : PaperReference → Except String String) (e : String)
    (hfail : listing_failure_message fetch url = some e)
    (htransport : ∀ msg, fetch = FetchOutcome.transportError msg → msg ≠ "") :
    (scrape_and_summarize fetch url fs).status = "failure" ∧
    (scrape_and_summarize fetch url fs).error = some e ∧ e ≠ "" ∧
    (scrape_and_summarize fetch url fs).papers = none := by
  cases fetch with
  | transportError msg =>
    have he : msg = e := by simpa [listing_failure_message] using hfail
    subst he
    exact ⟨rfl, rfl, htransport msg rfl, rfl⟩
  | response st reason entries =>
    have hr : raise_for_status st reason url = some e := hfail
    have hscrape : scrape_and_summarize (FetchOutcome.response st reason entries) url fs =
        { status := "failure", papers := none, error := some e } := by
      show (match raise_for_status st reason url with
        | some msg => ({ status := "failure", papers := none, error := some msg } : TaskResult)
        | none =>
          let papers := listPapers entries
          if papers.isEmpty then
            { status := "complete", papers := some [], error := none }
          else
            { status := "complete",
              papers := some (papers.map (processPaper fs)),
              error := none }) = _
      rw [hr]
    rw [hscrape]
    exact ⟨rfl, rfl, raise_for_status_ne_empty st reason url e hr, rfl⟩

/-- C2 witness: a 404 response fails the job with the HTTPError text. -/
theorem listing_failure_yields_failed_status_witness :
    listing_failure_message (FetchOutcome.response 404 "Not Found" demoEntries) "u" =
      some "404 Client Error: Not Found for url: u" ∧
    ((scrape_and_summarize (FetchOutcome.response 404 "Not Found" demoEntries) "u" demoFs).status =
      "failure" ∧
     (scrape_and_summarize (FetchOutcome.response 404 "Not Found" demoEntries) "u" demoFs).error =
      some "404 Client Error: Not Found for url: u" ∧
     "404 Client Error: Not Found for url: u" ≠ "" ∧
     (scrape_and_summarize (FetchOutcome.response 404 "Not Found" demoEntries) "u" demoFs).papers =
      none) :=
  ⟨by decide,
    listing_failure_yields_failed_status (FetchOutcome.response 404 "Not Found" demoEntries)
      "u" demoFs "404 Client Error: Not Found for url: u" (by decide)
      (fun msg h => FetchOutcome.noConfusion h)⟩

/-- C5: the final papers list carries the titles and links of the parsed
references in exactly the listing order.  The source builds the list by
one in-order append per reference, so the output order is the input order
by construction and cannot depend on when each per-item operation
finishes. -/
theorem paper_order_matches_listing_order
    (entries : List ArxivEntry) (st : Nat) (reason url : String)
    (fs : PaperReference → Except String String)
    (hok : raise_for_status st reason url = none) :
    ∃ ps,
      (scrape_and_summarize (FetchOutcome.response st reason entries) url fs).papers =
        some ps ∧
      ps.map (fun r => (r.title, r.link)) =
        (listPapers entries).map (fun p => (p.title, p.link)) := by
  rw [scrape_success_eq entries st reason url fs hok]
  refine ⟨(listPapers entries).map (processPaper fs), rfl, ?_⟩
  rw [List.map_map]
  refine List.map_congr_left ?_
  intro p hp
  cases hfp : fs p <;> simp [Function.comp, processPaper, hfp]

/-- C5 witness. -/
theorem paper_order_matches_listing_order_witness :
    raise_for_status 200 "OK" "u" = none ∧
    ∃ ps,
      (scrape_and_summarize (FetchOutcome.response 200 "OK" demoEntries) "u" demoFs).papers =
        some ps ∧
      ps.map (fun r => (r.title, r.link)) =
        (listPapers demoEntries).map (fun p => (p.title, p.link)) :=
  ⟨by decide, paper_order_matches_listing_order demoEntries 200 "OK" "u" demoFs (by decide)⟩

/-- C8: when the requested sentence count is at least the number of
sentences, the summarizer keeps every sentence, in original document
order: every sentence's rank (number of sentences beating it) is below
the document length, so none is truncated and the in-order index read-out
reproduces the document.  Empty documents yield empty output as the
n = 0 ≥ 0 instance. -/
theorem summarize_returns_all_when_enough
    (doc : List Sentence) (lo hi gap n : Nat) (h : doc.length ≤ n) :
    summarize doc lo hi gap n = doc := by
  unfold summarize
  have hfilter : ((List.range doc.length).filter (fun i =>
      decide (rank (doc.map (sentenceRating doc lo hi gap)) i < n))) =
      List.range doc.length := by
    refine List.filter_eq_self.mpr ?_
    intro i hmem
    have hilt : i < doc.length := List.mem_range.mp hmem
    have hrk := rank_lt_length (doc.map (sentenceRating doc lo hi gap)) i
      (by simpa using hilt)
    simp only [List.length_map] at hrk
    simp only [decide_eq_true_eq]
    omega
  rw [hfilter, map_getD_range]

/-- C8 witness: a two-sentence document asked for three sentences comes
back whole. -/
theorem summarize_returns_all_when_enough_witness :
    ([["alpha", "beta"], ["alpha"]] : List Sentence).length ≤ 3 ∧
    summarize [["alpha", "beta"], ["alpha"]] 1 2 4 3 = [["alpha", "beta"], ["alpha"]] :=
  ⟨by decide, summarize_returns_all_when_enough [["alpha", "beta"], ["alpha"]] 1 2 4 3 (by decide)⟩
